import Mathlib

/-!
Verification of the agent-orchestration core of the `mutator` repository.

The repository ships only the test suite for its core modules
(`mutator.execution.executor`, `mutator.llm.client`, `mutator.tools.manager`,
`mutator.tools.batch_tools`, `mutator.core.types`); the modules themselves are
not part of the available sources.  Each operation below is therefore modelled
from the specification's words (§3, §4.1, §4.2, §4.4, §7, §8 of the spec),
with the concrete message texts and field names pinned down by the repository's
own unit tests.  All definitions are executable.
-/

/-- A JSON-like value, the payload type of request parameters, tool arguments
and event data maps. -/
inductive JVal where
  | str (s : String)
  | num (q : ℚ)
  | bool (b : Bool)
  | arr (xs : List JVal)
  | obj (kvs : List (String × JVal))

/-- Substring occurrence on character lists: `hasSub p s` is true when the
pattern `p` occurs contiguously inside `s`. -/
def hasSub (p : List Char) : List Char → Bool
  | [] => p.isEmpty
  | b :: bs => p.isPrefixOf (b :: bs) || hasSub p bs

/-- The characters of a string, lower-cased; the classifier below is
case-insensitive. -/
def lowerChars (s : String) : List Char := s.data.map Char.toLower

/-- Modelled from the spec: the known rate-limit phrasings the Model Client's
failure classifier pattern-matches against (spec §4.2: "quota exceeded, 429,
throttled, 'rate limit', etc."); `mutator.llm.client` is not under the
available sources.  Patterns are stored lower-case. -/
def ratePatterns : List (List Char) :=
  ["rate limit", "rate_limit", "ratelimit", "429", "quota", "throttl",
   "too many requests", "billing"].map String.data

/-- Modelled from the spec: `LLMClient._is_rate_limit_error`, the pure
predicate classifying an error string as a rate-limit failure. -/
def isRateLimitError (s : String) : Bool :=
  ratePatterns.any (fun p => hasSub p (lowerChars s))

/-- Modelled from the spec: the transient-failure phrasings (spec §7(a):
network/5xx/timeout) that make a non-rate-limit error retryable. -/
def transientPatterns : List (List Char) :=
  ["connection", "network", "timeout", "temporar", "unavailable",
   "502", "503", "500"].map String.data

/-- Modelled from the spec: `LLMClient._is_retryable_error` — an error is
retryable when it is a rate-limit failure or a provider-transient failure. -/
def isRetryableError (s : String) : Bool :=
  isRateLimitError s || transientPatterns.any (fun p => hasSub p (lowerChars s))

theorem hasSub_iff (p s : List Char) : hasSub p s = true ↔ p <:+: s := by
  induction s with
  | nil => simp [hasSub, List.isEmpty_iff]
  | cons b bs ih => simp [hasSub, ih, List.infix_cons_iff]

/-- The execution tunables consumed by the Task Executor (spec §3,
`ExecutionConfig`): the iteration cap and the per-task timeout, in seconds. -/
structure ExecutionConfig where
  max_iterations : Nat
  task_timeout : Nat

/-- One observable occurrence in a task's event stream (spec §3,
`AgentEvent`): an event type tag, a free-form data map and a message. -/
structure AgentEvent where
  event_type : String
  data : List (String × JVal)
  message : String

/-- What one model/tool round-trip of the execution loop does, as observed by
the Task Executor's state machine (spec §4.4): the model either requests tool
calls that are dispatched (each with a success flag), signals completion, or
the round-trip raises an unclassified exception carrying a type name and a
message.  Fatal tool failures are folded into the `failure` case. -/
inductive IterOutcome where
  | progress (stepResults : List Bool)
  | finished (content : String)
  | failure (exnType exnMsg : String)

/-- The classified failure causes of an executor run (spec §7(e)–(f)):
task timeout, iteration cap, cooperative shutdown, unclassified exception. -/
inductive FailKind where
  | timeout
  | iterationCap
  | shutdown
  | unclassified (exnType exnMsg : String)
deriving DecidableEq

/-- The terminal outcome of the execution loop: completion content, or a
classified failure together with the number of iterations completed. -/
inductive ExecOutcome where
  | ok (content : String)
  | err (k : FailKind) (iterations : Nat)

/-- Modelled from the spec: the human-readable error text of each failure
classification (spec §4.4, messages pinned by `tests/unit/test_error_handling`;
`mutator.execution.executor` is not under the available sources). -/
def failMessage : FailKind → String
  | .timeout => "Task execution timed out"
  | .iterationCap => "Task exceeded maximum iterations"
  | .shutdown => "Task interrupted by shutdown request"
  | .unclassified _ m => "Workflow execution failed: " ++ m

/-- Modelled from the spec: the exception type name carried in the
`error_type` field of a `task_failed` event (spec §4.4: an unclassified
exception "is wrapped with its type name and message"). -/
def failTypeName : FailKind → String
  | .timeout => "TimeoutError"
  | .iterationCap => "RuntimeError"
  | .shutdown => "KeyboardInterrupt"
  | .unclassified t _ => t

/-- Modelled from the spec: the diagnostic data map of a `task_failed` event —
always `error`, `error_type`, `iterations_completed`, plus the
classification-specific extras `timeout` (the configured timeout) for the
timeout case and `shutdown_requested: true` for the shutdown case (spec §7). -/
def failData (cfg : ExecutionConfig) (k : FailKind) (n : Nat) : List (String × JVal) :=
  [("error", .str (failMessage k)),
   ("error_type", .str (failTypeName k)),
   ("iterations_completed", .num n)] ++
  (match k with
   | .timeout => [("timeout", .num cfg.task_timeout)]
   | .shutdown => [("shutdown_requested", .bool true)]
   | _ => [])

/-- The `task_started` event emitted on entry (spec §4.4). -/
def startedEvent : AgentEvent :=
  { event_type := "task_started", data := [], message := "Task started" }

/-- The `task_completed` terminal event. -/
def completedEvent (content : String) : AgentEvent :=
  { event_type := "task_completed", data := [("result", .str content)],
    message := "Task completed" }

/-- The `task_failed` terminal event for a classified failure. -/
def failedEvent (cfg : ExecutionConfig) (k : FailKind) (n : Nat) : AgentEvent :=
  { event_type := "task_failed", data := failData cfg k n,
    message := failMessage k }

/-- The `step_completed` event emitted for one dispatched tool call
(spec §4.4), carrying the call's error when it failed. -/
def stepEvent (success : Bool) : AgentEvent :=
  { event_type := "step_completed",
    data := [("success", .bool success)],
    message := if success then "Step completed" else "Step failed" }

/-- Modelled from the spec: the Task Executor's iteration loop (spec §4.4;
`mutator.execution.executor` is not under the available sources).  `beh i`
is what the model/tool round-trip of iteration `i` does, `sd i` is the
process-wide shutdown flag polled at iteration `i`'s boundary, `el i` the
wall-clock seconds elapsed at that boundary; `fuel` is the remaining
iteration budget.  Returns the intermediate events emitted and the terminal
outcome. -/
def runLoop (cfg : ExecutionConfig) (beh : Nat → IterOutcome)
    (sd : Nat → Bool) (el : Nat → Nat) :
    Nat → Nat → List AgentEvent × ExecOutcome
  | 0, i =>
    if sd i then ([], .err .shutdown i)
    else if cfg.task_timeout < el i then ([], .err .timeout i)
    else ([], .err .iterationCap i)
  | f + 1, i =>
    if sd i then ([], .err .shutdown i)
    else if cfg.task_timeout < el i then ([], .err .timeout i)
    else
      match beh i with
      | .failure t m => ([], .err (.unclassified t m) i)
      | .finished c => ([], .ok c)
      | .progress rs =>
        let p := runLoop cfg beh sd el f (i + 1)
        (rs.map stepEvent ++ p.1, p.2)

/-- Modelled from the spec: `TaskExecutor.execute_task` (spec §4.4).  Emits
`task_started`, runs the loop, appends the terminal event, and returns the
event stream together with the error re-raised to the caller (`none` on
success; a failure is both surfaced as `task_failed` and re-raised). -/
def executeTask (cfg : ExecutionConfig) (beh : Nat → IterOutcome)
    (sd : Nat → Bool) (el : Nat → Nat) :
    List AgentEvent × Option (FailKind × Nat) :=
  let p := runLoop cfg beh sd el cfg.max_iterations 0
  match p.2 with
  | .ok c => (startedEvent :: p.1 ++ [completedEvent c], none)
  | .err k n => (startedEvent :: p.1 ++ [failedEvent cfg k n], some (k, n))

theorem runLoop_events_step (cfg : ExecutionConfig) (beh : Nat → IterOutcome)
    (sd : Nat → Bool) (el : Nat → Nat) (fuel : Nat) :
    ∀ i, ∀ e ∈ (runLoop cfg beh sd el fuel i).1,
      e.event_type = "step_completed" := by
  induction fuel with
  | zero =>
    intro i e he
    unfold runLoop at he
    split at he
    · simp at he
    · split at he
      · simp at he
      · simp at he
  | succ f ih =>
    intro i e he
    unfold runLoop at he
    split at he
    · simp at he
    · split at he
      · simp at he
      · cases hb : beh i with
        | failure t m => simp [hb] at he
        | finished c => simp [hb] at he
        | progress rs =>
          simp [hb] at he
          rcases he with he | he
          · rcases he with ⟨-, hbe⟩ | ⟨-, hbe⟩ <;> (subst hbe; rfl)
          · exact ih (i + 1) e he

theorem executeTask_shape (cfg : ExecutionConfig) (beh : Nat → IterOutcome)
    (sd : Nat → Bool) (el : Nat → Nat) :
    ∃ mid term, (executeTask cfg beh sd el).1 = startedEvent :: mid ++ [term] ∧
      (∀ e ∈ mid, e.event_type = "step_completed") ∧
      (term.event_type = "task_completed" ∨ term.event_type = "task_failed") := by
  have hmid : ∀ e ∈ (runLoop cfg beh sd el cfg.max_iterations 0).1,
      e.event_type = "step_completed" :=
    runLoop_events_step cfg beh sd el cfg.max_iterations 0
  rcases hq : runLoop cfg beh sd el cfg.max_iterations 0 with ⟨mid, r⟩
  rw [hq] at hmid
  cases r with
  | ok c =>
    exact ⟨mid, completedEvent c, by simp [executeTask, hq], hmid, Or.inl rfl⟩
  | err k n =>
    exact ⟨mid, failedEvent cfg k n, by simp [executeTask, hq], hmid, Or.inr rfl⟩

/-- C1: for every task run through the Task Executor, the emitted event
stream contains exactly one `task_started` event, which is the first event,
and exactly one terminal event (`task_completed` XOR `task_failed`), which is
the last event — never both terminals, never neither. -/
theorem c1_event_stream_invariant (cfg : ExecutionConfig)
    (beh : Nat → IterOutcome) (sd : Nat → Bool) (el : Nat → Nat) :
    ((executeTask cfg beh sd el).1.head?.map AgentEvent.event_type
        = some "task_started") ∧
    (executeTask cfg beh sd el).1.countP
        (fun e => e.event_type == "task_started") = 1 ∧
    (executeTask cfg beh sd el).1.countP
        (fun e => e.event_type == "task_completed"
          || e.event_type == "task_failed") = 1 ∧
    ((executeTask cfg beh sd el).1.getLast?.map AgentEvent.event_type
        = some "task_completed" ∨
     (executeTask cfg beh sd el).1.getLast?.map AgentEvent.event_type
        = some "task_failed") := by
  obtain ⟨mid, term, hl, hmid, hterm⟩ := executeTask_shape cfg beh sd el
  have hmid1 : mid.countP (fun e => e.event_type == "task_started") = 0 := by
    rw [List.countP_eq_zero]
    intro e he
    simp [hmid e he]
  have hmid2 : mid.countP
      (fun e => e.event_type == "task_completed"
        || e.event_type == "task_failed") = 0 := by
    rw [List.countP_eq_zero]
    intro e he
    simp [hmid e he]
  refine ⟨?_, ?_, ?_, ?_⟩
  · rw [hl]; simp [startedEvent]
  · rw [hl]
    simp [List.countP_cons, List.countP_append, hmid1, startedEvent]
    rcases hterm with h | h <;> simp [h]
  · rw [hl]
    simp [List.countP_cons, List.countP_append, hmid2, startedEvent]
    rcases hterm with h | h <;> simp [h]
  · rw [hl]
    have hlast : (startedEvent :: mid ++ [term]).getLast? = some term :=
      List.getLast?_concat (startedEvent :: mid)
    rw [hlast]
    rcases hterm with h | h
    · exact Or.inl (by simp [h])
    · exact Or.inr (by simp [h])

/-- C2: every executor control failure (iteration cap, task timeout, shutdown
request) and every unclassified exception inside the loop is observable both
as a `task_failed` event (the last event) and as an error raised to the
caller, with event data carrying `error`, `error_type` and
`iterations_completed`, plus `timeout` equal to the configured timeout for
the timeout classification and `shutdown_requested = true` for the shutdown
classification. -/
theorem c2_failure_doubly_observable (cfg : ExecutionConfig)
    (beh : Nat → IterOutcome) (sd : Nat → Bool) (el : Nat → Nat)
    (k : FailKind) (n : Nat)
    (h : (runLoop cfg beh sd el cfg.max_iterations 0).2 = .err k n) :
    (executeTask cfg beh sd el).2 = some (k, n) ∧
    (executeTask cfg beh sd el).1.getLast? = some (failedEvent cfg k n) ∧
    ((failedEvent cfg k n).data.lookup "error").isSome = true ∧
    ((failedEvent cfg k n).data.lookup "error_type").isSome = true ∧
    (failedEvent cfg k n).data.lookup "iterations_completed"
      = some (.num (n : ℚ)) ∧
    (k = .timeout → (failedEvent cfg k n).data.lookup "timeout"
      = some (.num (cfg.task_timeout : ℚ))) ∧
    (k = .shutdown → (failedEvent cfg k n).data.lookup "shutdown_requested"
      = some (.bool true)) := by
  rcases hq : runLoop cfg beh sd el cfg.max_iterations 0 with ⟨mid, r⟩
  rw [hq] at h
  subst h
  refine ⟨by simp [executeTask, hq], ?_, ?_, ?_, ?_, ?_, ?_⟩
  · have hfst : (executeTask cfg beh sd el).1
        = startedEvent :: mid ++ [failedEvent cfg k n] := by
      simp [executeTask, hq]
    rw [hfst]
    exact List.getLast?_concat (startedEvent :: mid)
  · cases k <;> rfl
  · cases k <;> rfl
  · cases k <;> rfl
  · intro hk; subst hk; rfl
  · intro hk; subst hk; rfl

/-- Witness for C2: a run with the shutdown flag set at the first iteration
boundary fails with the shutdown classification, raised and emitted. -/
theorem c2_failure_doubly_observable_witness :
    (executeTask ⟨3, 60⟩ (fun _ => .progress []) (fun _ => true)
        (fun _ => 0)).2 = some (.shutdown, 0) ∧
    (executeTask ⟨3, 60⟩ (fun _ => .progress []) (fun _ => true)
        (fun _ => 0)).1.getLast?
      = some (failedEvent ⟨3, 60⟩ .shutdown 0) := by
  have h := c2_failure_doubly_observable ⟨3, 60⟩ (fun _ => .progress [])
    (fun _ => true) (fun _ => 0) .shutdown 0 rfl
  exact ⟨h.1, h.2.1⟩

/-- The backend providers the Model Client can target (spec §4.1). -/
inductive LLMProvider where
  | openai
  | azure
  | ollama
  | custom
  | anthropic
  | google
deriving DecidableEq

/-- A provider is OpenAI-compatible when it receives the OpenAI calling
convention (spec §4.1: OpenAI, Azure, Ollama, generic/custom). -/
def LLMProvider.isOpenAICompatible : LLMProvider → Bool
  | .openai | .azure | .ollama | .custom => true
  | .anthropic | .google => false

/-- The schema of one registered function/tool as handed to the Model Client
(name, description, JSON-schema of the parameters). -/
structure FunctionSchema where
  name : String
  description : String
  parameters : JVal

/-- The Model Client configuration (spec §3 and §6: provider, sampling
parameters — unset optionals are absent —, and the retry tunables). -/
structure LLMConfig where
  provider : LLMProvider
  model : String
  top_p : Option ℚ
  frequency_penalty : Option ℚ
  presence_penalty : Option ℚ
  max_retries : Nat
  retry_delay : ℚ
  system_prompt : Option String
  disable_system_prompt : Bool
  disable_tool_role : Bool

/-- The OpenAI-compatible tool payload: each schema in a
`{type: function, function: <schema>}` wrapper (spec §4.1). -/
def openaiToolPayload (fs : List FunctionSchema) : JVal :=
  .arr (fs.map fun f => .obj
    [("type", .str "function"),
     ("function", .obj
       [("name", .str f.name),
        ("description", .str f.description),
        ("parameters", f.parameters)])])

/-- The Anthropic tool payload: flat `{name, description, input_schema}`
objects (spec §4.1). -/
def anthropicToolPayload (fs : List FunctionSchema) : JVal :=
  .arr (fs.map fun f => .obj
    [("name", .str f.name),
     ("description", .str f.description),
     ("input_schema", f.parameters)])

/-- The Google tool payload: tools wrapped as `{function_declarations: [...]}`
(spec §4.1). -/
def googleToolPayload (fs : List FunctionSchema) : JVal :=
  .arr (fs.map fun f => .obj
    [("function_declarations", .arr
      [.obj [("name", .str f.name),
             ("description", .str f.description),
             ("parameters", f.parameters)]])])

/-- The tool payload for the active provider. -/
def toolPayload (p : LLMProvider) (fs : List FunctionSchema) : JVal :=
  match p with
  | .anthropic => anthropicToolPayload fs
  | .google => googleToolPayload fs
  | _ => openaiToolPayload fs

/-- Helper: add a key only when its configured value is present. -/
def optParam2 (key : String) (v : Option ℚ) : List (String × JVal) :=
  match v with
  | some q => [(key, .num q)]
  | none => []

/-- Modelled from the spec: `LLMClient._add_provider_specific_params`
(spec §4.1; `mutator.llm.client` is not under the available sources).
Given the configuration, the registered function schemas and the base
request, returns the completed request.  OpenAI-compatible providers get
`tools` (wrapped), `tool_choice`, and, when configured, `top_p`,
`frequency_penalty`, `presence_penalty`; Anthropic- and Google-family
providers get their own tool shapes, no `tool_choice`, no penalties, but
`top_p` when configured; an unset configured value is never added; with no
registered tools no tool field is added at all. -/
def addProviderSpecificParams (cfg : LLMConfig) (fs : List FunctionSchema)
    (base : List (String × JVal)) : List (String × JVal) :=
  base ++
  (if fs.isEmpty then []
   else ("tools", toolPayload cfg.provider fs) ::
     (if cfg.provider.isOpenAICompatible
      then [("tool_choice", .str "auto")] else [])) ++
  optParam2 "top_p" cfg.top_p ++
  (if cfg.provider.isOpenAICompatible
   then optParam2 "frequency_penalty" cfg.frequency_penalty ++
        optParam2 "presence_penalty" cfg.presence_penalty
   else [])

/-- The key set of a built request. -/
def paramKeys (cfg : LLMConfig) (fs : List FunctionSchema)
    (base : List (String × JVal)) : List String :=
  (addProviderSpecificParams cfg fs base).map Prod.fst

theorem mem_paramKeys (cfg : LLMConfig) (fs : List FunctionSchema)
    (base : List (String × JVal)) (key : String) :
    key ∈ paramKeys cfg fs base ↔
      key ∈ base.map Prod.fst ∨
      (fs ≠ [] ∧ (key = "tools" ∨
        (cfg.provider.isOpenAICompatible = true ∧ key = "tool_choice"))) ∨
      (key = "top_p" ∧ cfg.top_p.isSome = true) ∨
      (cfg.provider.isOpenAICompatible = true ∧
        ((key = "frequency_penalty" ∧ cfg.frequency_penalty.isSome = true) ∨
         (key = "presence_penalty" ∧ cfg.presence_penalty.isSome = true))) := by
  rcases ht : cfg.top_p with _ | tv <;>
  rcases hf : cfg.frequency_penalty with _ | fv <;>
  rcases hp : cfg.presence_penalty with _ | pv <;>
  cases hoc : cfg.provider.isOpenAICompatible <;>
  cases hfs : fs <;>
  simp [paramKeys, addProviderSpecificParams, optParam2, ht, hf, hp, hoc,
    hfs] <;>
  tauto

/-- C3: a completion request built by the Model Client never contains a key
whose configured value is unset; Anthropic/Google requests never contain
`tool_choice`, `frequency_penalty` or `presence_penalty` but contain `top_p`
when configured; OpenAI-compatible requests (OpenAI, Azure, Ollama, custom)
contain `tools`, `tool_choice`, `top_p`, `frequency_penalty` and
`presence_penalty` whenever those values are configured. -/
theorem c3_provider_request_shaping (cfg : LLMConfig)
    (fs : List FunctionSchema) (base : List (String × JVal))
    (hb : ∀ key ∈ base.map Prod.fst,
      key ∉ (["tools", "tool_choice", "top_p", "frequency_penalty",
              "presence_penalty"] : List String)) :
    (cfg.top_p = none → "top_p" ∉ paramKeys cfg fs base) ∧
    (cfg.frequency_penalty = none →
      "frequency_penalty" ∉ paramKeys cfg fs base) ∧
    (cfg.presence_penalty = none →
      "presence_penalty" ∉ paramKeys cfg fs base) ∧
    (fs = [] → "tools" ∉ paramKeys cfg fs base ∧
      "tool_choice" ∉ paramKeys cfg fs base) ∧
    ((cfg.provider = .anthropic ∨ cfg.provider = .google) →
      "tool_choice" ∉ paramKeys cfg fs base ∧
      "frequency_penalty" ∉ paramKeys cfg fs base ∧
      "presence_penalty" ∉ paramKeys cfg fs base) ∧
    (cfg.top_p.isSome = true → "top_p" ∈ paramKeys cfg fs base) ∧
    (cfg.provider.isOpenAICompatible = true →
      (fs ≠ [] → "tools" ∈ paramKeys cfg fs base ∧
        "tool_choice" ∈ paramKeys cfg fs base) ∧
      (cfg.frequency_penalty.isSome = true →
        "frequency_penalty" ∈ paramKeys cfg fs base) ∧
      (cfg.presence_penalty.isSome = true →
        "presence_penalty" ∈ paramKeys cfg fs base)) := by
  have hb1 : "tools" ∉ base.map Prod.fst := fun hx => by simpa using hb _ hx
  have hb2 : "tool_choice" ∉ base.map Prod.fst := fun hx => by
    simpa using hb _ hx
  have hb3 : "top_p" ∉ base.map Prod.fst := fun hx => by simpa using hb _ hx
  have hb4 : "frequency_penalty" ∉ base.map Prod.fst := fun hx => by
    simpa using hb _ hx
  have hb5 : "presence_penalty" ∉ base.map Prod.fst := fun hx => by
    simpa using hb _ hx
  refine ⟨?_, ?_, ?_, ?_, ?_, ?_, ?_⟩
  · intro h
    simp [mem_paramKeys, h, hb3]
  · intro h
    have : ¬ (cfg.provider.isOpenAICompatible = true ∧
        cfg.frequency_penalty.isSome = true) := by simp [h]
    simp [mem_paramKeys, h, hb4]
  · intro h
    simp [mem_paramKeys, h, hb5]
  · intro h
    constructor
    · simp [mem_paramKeys, h, hb1]
    · simp [mem_paramKeys, h, hb2]
  · intro h
    have hoc : cfg.provider.isOpenAICompatible = false := by
      rcases h with h | h <;> simp [h, LLMProvider.isOpenAICompatible]
    exact ⟨by simp [mem_paramKeys, hoc, hb2],
      by simp [mem_paramKeys, hoc, hb4],
      by simp [mem_paramKeys, hoc, hb5]⟩
  · intro h
    simp [mem_paramKeys, h]
  · intro hoc
    refine ⟨fun hfs => ⟨?_, ?_⟩, fun h => ?_, fun h => ?_⟩
    · simp [mem_paramKeys, hoc, hfs]
    · simp [mem_paramKeys, hoc, hfs]
    · simp [mem_paramKeys, hoc, h]
    · simp [mem_paramKeys, hoc, h]

/-- Witness for C3: an Anthropic configuration with `top_p` configured and
the penalties unset, one registered function, and the standard base request
keys. -/
theorem c3_provider_request_shaping_witness :
    ("top_p" ∈ paramKeys
      ⟨.anthropic, "claude-3-sonnet-20240229", some (9/10), none, none,
        3, 1/10, none, false, false⟩
      [⟨"test_function", "A test function", .obj []⟩]
      [("model", .str "anthropic/claude-3-sonnet-20240229"),
       ("messages", .arr []), ("temperature", .num (7/10)),
       ("max_tokens", .num 2000), ("timeout", .num 60)]) ∧
    ("tool_choice" ∉ paramKeys
      ⟨.anthropic, "claude-3-sonnet-20240229", some (9/10), none, none,
        3, 1/10, none, false, false⟩
      [⟨"test_function", "A test function", .obj []⟩]
      [("model", .str "anthropic/claude-3-sonnet-20240229"),
       ("messages", .arr []), ("temperature", .num (7/10)),
       ("max_tokens", .num 2000), ("timeout", .num 60)]) := by
  have h := c3_provider_request_shaping
    ⟨.anthropic, "claude-3-sonnet-20240229", some (9/10), none, none,
      3, 1/10, none, false, false⟩
    [⟨"test_function", "A test function", .obj []⟩]
    [("model", .str "anthropic/claude-3-sonnet-20240229"),
     ("messages", .arr []), ("temperature", .num (7/10)),
     ("max_tokens", .num 2000), ("timeout", .num 60)]
    (by decide)
  exact ⟨h.2.2.2.2.2.1 rfl, (h.2.2.2.2.1 (Or.inl rfl)).1⟩

/-- The outcome of one underlying provider call attempt: computed content or
a failure carrying an error message. -/
inductive CallOutcome where
  | ok (content : String)
  | fail (msg : String)
deriving DecidableEq

/-- A completion response as returned to the Model Client's caller
(spec §6: content, success flag, error message). -/
structure LLMResponse where
  success : Bool
  content : String
  error : Option String
deriving DecidableEq

/-- The message of a failing call attempt (`""` for a successful one). -/
def failMsgOf : CallOutcome → String
  | .ok _ => ""
  | .fail m => m

/-- Modelled from the spec: the wait before the retry that follows the
failure of `attempt` (0-based) — `60 × 2^attempt` seconds for a rate-limit
failure, `retry_delay × 2^attempt` otherwise (spec §4.2, values pinned by
`tests/unit/test_rate_limit_retry`). -/
def backoffDelay (cfg : LLMConfig) (msg : String) (attempt : Nat) : ℚ :=
  if isRateLimitError msg then 60 * 2 ^ attempt
  else cfg.retry_delay * 2 ^ attempt

/-- Modelled from the spec: the Model Client's retry loop (spec §4.2;
`mutator.llm.client` is not under the available sources).  `beh a` is the
outcome of attempt `a`; `fuel` is the number of attempts remaining.  Returns
the list of waits slept, in order, and the final response; a retryable
failure with attempts remaining sleeps and retries, anything else returns
immediately — the loop never raises, it returns a failed response carrying
the last error message. -/
def retryLoop (cfg : LLMConfig) (beh : Nat → CallOutcome) :
    Nat → Nat → List ℚ × LLMResponse
  | 0, i => ([], ⟨false, "", some (failMsgOf (beh i))⟩)
  | f + 1, i =>
    match beh i with
    | .ok c => ([], ⟨true, c, none⟩)
    | .fail m =>
      if isRetryableError m && f != 0 then
        let p := retryLoop cfg beh f (i + 1)
        (backoffDelay cfg m i :: p.1, p.2)
      else ([], ⟨false, "", some m⟩)

/-- Modelled from the spec: `LLMClient.complete_with_messages`' retry shell —
up to `max_retries` attempts starting at attempt 0. -/
def completeWithRetry (cfg : LLMConfig) (beh : Nat → CallOutcome) :
    List ℚ × LLMResponse :=
  retryLoop cfg beh cfg.max_retries 0

theorem retryLoop_succeed_after (cfg : LLMConfig) (beh : Nat → CallOutcome) :
    ∀ k f i c, k < f →
      (∀ j, j < k → ∃ m, beh (i + j) = .fail m ∧ isRetryableError m = true) →
      beh (i + k) = .ok c →
      (retryLoop cfg beh f i).1 =
        (List.range k).map
          (fun j => backoffDelay cfg (failMsgOf (beh (i + j))) (i + j)) ∧
      (retryLoop cfg beh f i).2 = ⟨true, c, none⟩ := by
  intro k
  induction k with
  | zero =>
    intro f i c hkf hfail hok
    obtain ⟨f2, rfl⟩ : ∃ f2, f = f2 + 1 := ⟨f - 1, by omega⟩
    rw [Nat.add_zero] at hok
    simp [retryLoop, hok]
  | succ k ih =>
    intro f i c hkf hfail hok
    obtain ⟨f2, rfl⟩ : ∃ f2, f = f2 + 1 := ⟨f - 1, by omega⟩
    obtain ⟨m, hm, hmr⟩ := hfail 0 (Nat.succ_pos k)
    rw [Nat.add_zero] at hm
    have hf2 : f2 ≠ 0 := by omega
    have hfail2 : ∀ j, j < k →
        ∃ m2, beh (i + 1 + j) = .fail m2 ∧ isRetryableError m2 = true := by
      intro j hj
      have h2 := hfail (j + 1) (by omega)
      rwa [show i + (j + 1) = i + 1 + j by omega] at h2
    have hok2 : beh (i + 1 + k) = .ok c := by
      rwa [show i + 1 + k = i + (k + 1) by omega]
    have ih2 := ih f2 (i + 1) c (by omega) hfail2 hok2
    have hcond : (isRetryableError m && (f2 != 0)) = true := by
      simp [hmr, hf2]
    have hstep : retryLoop cfg beh (f2 + 1) i =
        (backoffDelay cfg m i :: (retryLoop cfg beh f2 (i + 1)).1,
         (retryLoop cfg beh f2 (i + 1)).2) := by
      rw [retryLoop]
      simp [hm, hcond]
    rw [hstep]
    refine ⟨?_, ih2.2⟩
    simp only [ih2.1]
    rw [List.range_succ_eq_map, List.map_cons, List.map_map]
    congr 1
    · rw [Nat.add_zero, hm]
      rfl
    · apply List.map_congr_left
      intro a ha
      simp only [Function.comp_apply]
      rw [show i + 1 + a = i + (a + 1) by omega]

theorem retryLoop_all_fail (cfg : LLMConfig) (beh : Nat → CallOutcome) :
    ∀ f i, 1 ≤ f →
      (∀ j, ∃ m, beh j = .fail m ∧ isRetryableError m = true) →
      (retryLoop cfg beh f i).2 =
        ⟨false, "", some (failMsgOf (beh (i + (f - 1))))⟩ := by
  intro f
  induction f with
  | zero => intro i h; omega
  | succ f ih =>
    intro i h1 hfail
    obtain ⟨m, hm, hmr⟩ := hfail i
    cases f with
    | zero =>
      rw [retryLoop]
      simp [hm, failMsgOf]
    | succ f2 =>
      have hcond : (isRetryableError m && ((f2 + 1) != 0)) = true := by
        simp [hmr]
      have h2 := ih (i + 1) (by omega) hfail
      rw [retryLoop]
      simp only [hm, hcond, if_true]
      rw [h2]
      rw [show i + 1 + (f2 + 1 - 1) = i + (f2 + 1 + 1 - 1) by omega]

/-- C4: in the Model Client retry loop, successive waits before retrying a
rate-limited failure are `60, 120, 240, …` seconds (`60 × 2^a` before the
retry of 0-based attempt `a`); successive waits for a non-rate-limited
retryable failure are `retry_delay, 2·retry_delay, 4·retry_delay, …`; and
once `max_retries` attempts are exhausted the call returns a failed response
carrying the last error message — it never raises. -/
theorem c4_backoff_schedule_and_exhaustion (cfg : LLMConfig)
    (hmax : 1 ≤ cfg.max_retries) :
    (∀ (beh : Nat → CallOutcome) (k : Nat) (c : String),
      k < cfg.max_retries →
      (∀ j, j < k → ∃ m, beh j = .fail m ∧ isRateLimitError m = true) →
      beh k = .ok c →
      (completeWithRetry cfg beh).1 =
        (List.range k).map (fun j => (60 : ℚ) * 2 ^ j) ∧
      (completeWithRetry cfg beh).2 = ⟨true, c, none⟩) ∧
    (∀ (beh : Nat → CallOutcome) (k : Nat) (c : String),
      k < cfg.max_retries →
      (∀ j, j < k → ∃ m, beh j = .fail m ∧
        isRetryableError m = true ∧ isRateLimitError m = false) →
      beh k = .ok c →
      (completeWithRetry cfg beh).1 =
        (List.range k).map (fun j => cfg.retry_delay * 2 ^ j) ∧
      (completeWithRetry cfg beh).2 = ⟨true, c, none⟩) ∧
    (∀ (beh : Nat → CallOutcome),
      (∀ j, ∃ m, beh j = .fail m ∧ isRetryableError m = true) →
      (completeWithRetry cfg beh).2.success = false ∧
      (completeWithRetry cfg beh).2.error =
        some (failMsgOf (beh (cfg.max_retries - 1)))) := by
  refine ⟨?_, ?_, ?_⟩
  · intro beh k c hk hfail hok
    have hfail2 : ∀ j, j < k →
        ∃ m, beh (0 + j) = .fail m ∧ isRetryableError m = true := by
      intro j hj
      obtain ⟨m, hm, hmr⟩ := hfail j hj
      exact ⟨m, by simpa using hm, by simp [isRetryableError, hmr]⟩
    have h := retryLoop_succeed_after cfg beh k cfg.max_retries 0 c hk hfail2
      (by simpa using hok)
    refine ⟨?_, h.2⟩
    rw [completeWithRetry, h.1]
    apply List.map_congr_left
    intro a ha
    obtain ⟨m, hm, hmr⟩ := hfail a (List.mem_range.mp ha)
    simp [Nat.zero_add, hm, failMsgOf, backoffDelay, hmr]
  · intro beh k c hk hfail hok
    have hfail2 : ∀ j, j < k →
        ∃ m, beh (0 + j) = .fail m ∧ isRetryableError m = true := by
      intro j hj
      obtain ⟨m, hm, hmr, _⟩ := hfail j hj
      exact ⟨m, by simpa using hm, hmr⟩
    have h := retryLoop_succeed_after cfg beh k cfg.max_retries 0 c hk hfail2
      (by simpa using hok)
    refine ⟨?_, h.2⟩
    rw [completeWithRetry, h.1]
    apply List.map_congr_left
    intro a ha
    obtain ⟨m, hm, hmr, hnr⟩ := hfail a (List.mem_range.mp ha)
    simp [Nat.zero_add, hm, failMsgOf, backoffDelay, hnr]
  · intro beh hfail
    have h := retryLoop_all_fail cfg beh cfg.max_retries 0 hmax hfail
    rw [completeWithRetry, h]
    simp

/-- Witness for C4: three retry attempts; two rate-limited failures then a
success sleeps 60 s and 120 s; a permanently failing behaviour returns a
failed response carrying the last error message. -/
theorem c4_backoff_schedule_and_exhaustion_witness :
    ((completeWithRetry
        ⟨.openai, "gpt-3.5-turbo", none, none, none, 3, 1/10, none,
          false, false⟩
        (fun j => if j < 2
          then .fail "litellm.RateLimitError: You exceeded your current quota"
          else .ok "Success")).1 = [60, 120] ∧
     (completeWithRetry
        ⟨.openai, "gpt-3.5-turbo", none, none, none, 3, 1/10, none,
          false, false⟩
        (fun j => if j < 2
          then .fail "litellm.RateLimitError: You exceeded your current quota"
          else .ok "Success")).2 = ⟨true, "Success", none⟩) ∧
    ((completeWithRetry
        ⟨.openai, "gpt-3.5-turbo", none, none, none, 3, 1/10, none,
          false, false⟩
        (fun _ => .fail "Connection timeout")).2.success = false ∧
     (completeWithRetry
        ⟨.openai, "gpt-3.5-turbo", none, none, none, 3, 1/10, none,
          false, false⟩
        (fun _ => .fail "Connection timeout")).2.error =
       some "Connection timeout") := by
  have h1 := (c4_backoff_schedule_and_exhaustion
      ⟨.openai, "gpt-3.5-turbo", none, none, none, 3, 1/10, none,
        false, false⟩ (by decide)).1
    (fun j => if j < 2
      then .fail "litellm.RateLimitError: You exceeded your current quota"
      else .ok "Success")
    2 "Success" (by decide)
    (fun j hj => ⟨"litellm.RateLimitError: You exceeded your current quota",
      by simp [hj], by decide⟩)
    (by decide)
  have h2 := (c4_backoff_schedule_and_exhaustion
      ⟨.openai, "gpt-3.5-turbo", none, none, none, 3, 1/10, none,
        false, false⟩ (by decide)).2.2
    (fun _ => .fail "Connection timeout")
    (fun j => ⟨"Connection timeout", rfl, by decide⟩)
  refine ⟨⟨?_, h1.2⟩, ⟨h2.1, ?_⟩⟩
  · rw [h1.1]
    norm_num [List.range_succ]
  · rw [h2.2]
    rfl

theorem isRateLimitError_of_pattern (p : List Char) (s : String)
    (hp : p ∈ ratePatterns) (h : p <:+: lowerChars s) :
    isRateLimitError s = true := by
  rw [isRateLimitError, List.any_eq_true]
  exact ⟨p, hp, (hasSub_iff p (lowerChars s)).mpr h⟩

theorem rate_phrase_mono (q : String) (p : List Char) (s : String)
    (hp : p ∈ ratePatterns) (hq : hasSub p (lowerChars q) = true)
    (h : q.data <:+: s.data) :
    isRateLimitError s = true := by
  apply isRateLimitError_of_pattern p s hp
  have h2 : lowerChars q <:+: lowerChars s := h.map Char.toLower
  exact ((hasSub_iff p (lowerChars q)).mp hq).trans h2

/-- C5: the rate-limit classifier is a pure predicate on error strings —
every string containing one of the known rate-limit phrasings ("429",
"quota exceeded", "rate limit", "throttled", "too many requests") classifies
as a rate limit, and the unrelated error strings of the test suite
(authentication failure, invalid model, network/connection error) do not. -/
theorem c5_rate_limit_classifier :
    (∀ s : String, "429".data <:+: s.data → isRateLimitError s = true) ∧
    (∀ s : String, "quota exceeded".data <:+: s.data →
      isRateLimitError s = true) ∧
    (∀ s : String, "rate limit".data <:+: s.data →
      isRateLimitError s = true) ∧
    (∀ s : String, "throttled".data <:+: s.data →
      isRateLimitError s = true) ∧
    (∀ s : String, "too many requests".data <:+: s.data →
      isRateLimitError s = true) ∧
    isRateLimitError "Invalid API key" = false ∧
    isRateLimitError "Model not found" = false ∧
    isRateLimitError "Network connection error" = false ∧
    isRateLimitError "Invalid request format" = false ∧
    isRateLimitError "unauthorized" = false ∧
    isRateLimitError "authentication failed" = false ∧
    isRateLimitError "invalid model" = false := by
  refine ⟨?_, ?_, ?_, ?_, ?_, ?_, ?_, ?_, ?_, ?_, ?_, ?_⟩
  · exact fun s h => rate_phrase_mono "429" "429".data s
      (by decide) (by decide) h
  · exact fun s h => rate_phrase_mono "quota exceeded" "quota".data s
      (by decide) (by decide) h
  · exact fun s h => rate_phrase_mono "rate limit" "rate limit".data s
      (by decide) (by decide) h
  · exact fun s h => rate_phrase_mono "throttled" "throttl".data s
      (by decide) (by decide) h
  · exact fun s h => rate_phrase_mono "too many requests"
      "too many requests".data s (by decide) (by decide) h
  · decide
  · decide
  · decide
  · decide
  · decide
  · decide
  · decide

/-- Witness for C5: concrete rate-limit strings of the test suite classify
as rate limits. -/
theorem c5_rate_limit_classifier_witness :
    isRateLimitError "429 Too Many Requests" = true ∧
    isRateLimitError "You exceeded your current quota exceeded" = true := by
  constructor
  · exact c5_rate_limit_classifier.1 "429 Too Many Requests"
      ((hasSub_iff _ _).mp (by decide))
  · exact c5_rate_limit_classifier.2.1
      "You exceeded your current quota exceeded"
      ((hasSub_iff _ _).mp (by decide))

/-- A structured tool as seen by the dispatcher (spec §6): executing it on an
argument map either computes a result payload or fails with an error. -/
structure SimpleTool where
  run : List (String × JVal) → Except String JVal

/-- The uniform result envelope of one dispatch (spec §3, `ToolResult`). -/
structure ToolResult where
  tool_name : String
  success : Bool
  result : Option JVal
  error : Option String

/-- Modelled from the spec: the Tool Registry & Dispatcher state (spec §4.2;
`mutator.tools.manager` is not under the available sources): the registered
tools and the set of disabled names. -/
structure ToolManager where
  registry : List (String × SimpleTool)
  disabled : List String

/-- Modelled from the spec: `ToolManager.register_function` — registering a
name that is disabled by configuration is a silent no-op (spec §4.2). -/
def registerFunction (m : ToolManager) (name : String) (t : SimpleTool) :
    ToolManager :=
  if name ∈ m.disabled then m
  else { m with registry := m.registry ++ [(name, t)] }

/-- Modelled from the spec: `ToolManager.disable_tool` — marks a name
disabled without dropping its registration. -/
def disableTool (m : ToolManager) (name : String) : ToolManager :=
  { m with disabled := name :: m.disabled }

/-- Modelled from the spec: `ToolManager.enable_tool` — removes a name from
the disabled set. -/
def enableTool (m : ToolManager) (name : String) : ToolManager :=
  { m with disabled := m.disabled.filter (fun x => x != name) }

/-- Modelled from the spec: `ToolManager.is_tool_disabled`. -/
def isToolDisabled (m : ToolManager) (name : String) : Bool :=
  name ∈ m.disabled

/-- Modelled from the spec: `ToolManager.execute_tool` (spec §4.2) — dispatch
on an unknown name returns a failed result with message
`"Tool '<name>' not found"`; on a disabled name,
`"Tool '<name>' is disabled"`; otherwise it runs the tool.  Dispatch
failures are returned as values — the function is total and never raises. -/
def executeTool (m : ToolManager) (name : String)
    (args : List (String × JVal)) : ToolResult :=
  match m.registry.lookup name with
  | none => ⟨name, false, none, some ("Tool '" ++ name ++ "' not found")⟩
  | some t =>
    if name ∈ m.disabled then
      ⟨name, false, none, some ("Tool '" ++ name ++ "' is disabled")⟩
    else
      match t.run args with
      | .ok v => ⟨name, true, some v, none⟩
      | .error e => ⟨name, false, none, some e⟩

/-- C6: dispatch on a name not present in the registry returns a failed
`ToolResult` whose error is `"Tool '<name>' not found"`; dispatch on a
registered-but-disabled name returns a failed `ToolResult` whose error is
`"Tool '<name>' is disabled"`; both failures are returned as values of the
total dispatch function, never raised. -/
theorem c6_dispatch_failures_are_values (m : ToolManager) (name : String)
    (args : List (String × JVal)) :
    (m.registry.lookup name = none →
      executeTool m name args =
        ⟨name, false, none, some ("Tool '" ++ name ++ "' not found")⟩) ∧
    (∀ t, m.registry.lookup name = some t → name ∈ m.disabled →
      executeTool m name args =
        ⟨name, false, none, some ("Tool '" ++ name ++ "' is disabled")⟩) := by
  constructor
  · intro h
    simp [executeTool, h]
  · intro t h hd
    simp [executeTool, h, hd]

/-- Witness for C6: a manager with one registered, disabled tool. -/
theorem c6_dispatch_failures_are_values_witness :
    executeTool ⟨[("test_func", ⟨fun _ => .ok (.str "test")⟩)],
        ["test_func"]⟩ "nonexistent" [] =
      ⟨"nonexistent", false, none, some "Tool 'nonexistent' not found"⟩ ∧
    executeTool ⟨[("test_func", ⟨fun _ => .ok (.str "test")⟩)],
        ["test_func"]⟩ "test_func" [] =
      ⟨"test_func", false, none, some "Tool 'test_func' is disabled"⟩ := by
  constructor
  · exact (c6_dispatch_failures_are_values
      ⟨[("test_func", ⟨fun _ => .ok (.str "test")⟩)], ["test_func"]⟩
      "nonexistent" []).1 rfl
  · exact (c6_dispatch_failures_are_values
      ⟨[("test_func", ⟨fun _ => .ok (.str "test")⟩)], ["test_func"]⟩
      "test_func" []).2 ⟨fun _ => .ok (.str "test")⟩ rfl (by simp)

/-- C7: for every registered tool that is then disabled, `enable` on its
name makes it dispatchable again — a subsequent `execute` succeeds — with no
re-registration required. -/
theorem c7_reenable_restores_dispatch (m : ToolManager) (name : String)
    (t : SimpleTool) (args : List (String × JVal)) (v : JVal)
    (hreg : m.registry.lookup name = some t)
    (hrun : t.run args = .ok v) :
    isToolDisabled (disableTool m name) name = true ∧
    isToolDisabled (enableTool (disableTool m name) name) name = false ∧
    executeTool (enableTool (disableTool m name) name) name args =
      ⟨name, true, some v, none⟩ := by
  have hnd : name ∉ (enableTool (disableTool m name) name).disabled := by
    simp [enableTool, disableTool, List.mem_filter]
  refine ⟨by simp [isToolDisabled, disableTool], ?_, ?_⟩
  · simpa [isToolDisabled] using hnd
  · have hreg2 : (enableTool (disableTool m name) name).registry.lookup name
        = some t := hreg
    simp [executeTool, hreg2, hnd, hrun]

/-- Witness for C7: disable then enable on a one-tool manager; dispatch
succeeds again. -/
theorem c7_reenable_restores_dispatch_witness :
    executeTool
        (enableTool
          (disableTool ⟨[("test_func", ⟨fun _ => .ok (.str "ok")⟩)], []⟩
            "test_func")
          "test_func")
        "test_func" [] =
      ⟨"test_func", true, some (.str "ok"), none⟩ :=
  (c7_reenable_restores_dispatch
    ⟨[("test_func", ⟨fun _ => .ok (.str "ok")⟩)], []⟩
    "test_func" ⟨fun _ => .ok (.str "ok")⟩ [] (.str "ok")
    rfl rfl).2.2

/-- Consecutive groups of at most `size` elements (`size = 0` behaves as
groups of one). -/
def chunkList {α : Type} (size : Nat) : List α → List (List α)
  | [] => []
  | x :: xs => (x :: xs.take (size - 1)) :: chunkList size (xs.drop (size - 1))
termination_by l => l.length
decreasing_by simp [List.length_drop]; omega

/-- Modelled from the spec: the number of matches handed to one delegated
group by the batch layer.  The spec does not pin the exact size; the test
suite implies that up to five matches form a single group, so the model
uses groups of ten. -/
def batchGroupSize : Nat := 10

/-- The aggregate outcome reported by a batch tool (spec §4.2: per-group
success/failure counts and a human-readable summary). -/
structure BatchOutcome where
  success : Bool
  message : String
  total_files_found : Nat
  total_groups : Nat
  successful_groups : Nat
  failed_groups : Nat
  summary : String

/-- Modelled from the spec: `process_search_files_by_name`
(`mutator.tools.batch_tools` is not under the available sources; spec §4.2):
the match set is capped by `max_results` before grouping, each group is
handed to the Delegation Tool (abstracted as `delegate`), and the per-group
success/failure counts are aggregated into a summary
"Processed N files in G groups". -/
def processSearchFilesByName (matchList : List String) (maxResults : Option Nat)
    (delegate : List String → Bool) : BatchOutcome :=
  let capped := match maxResults with
    | some k => matchList.take k
    | none => matchList
  if capped.isEmpty then
    ⟨false, "No files found matching the pattern", 0, 0, 0, 0, ""⟩
  else
    let groups := chunkList batchGroupSize capped
    let rs := groups.map delegate
    ⟨true, "", capped.length, groups.length,
      rs.countP (fun b => b), rs.countP (fun b => !b),
      "Processed " ++ toString capped.length ++ " files in " ++
        toString groups.length ++ " groups"⟩

theorem chunkList_singleton {α : Type} (size : Nat) (l : List α)
    (h1 : l ≠ []) (h2 : l.length ≤ size) : chunkList size l = [l] := by
  cases l with
  | nil => simp at h1
  | cons x xs =>
    rw [chunkList]
    have hlen : xs.length ≤ size - 1 := by simp at h2; omega
    have ht : xs.take (size - 1) = xs := List.take_of_length_le hlen
    have hd : xs.drop (size - 1) = [] := List.drop_eq_nil_of_le hlen
    rw [ht, hd]
    simp [chunkList]

/-- C8: with 10 matches and `max_results = 5`, the cap is applied before
grouping — the reported total processed count is exactly 5, the matches form
exactly 1 group, and the successful-group and failed-group counts sum
to 1, whatever each delegation returns. -/
theorem c8_batch_cap_before_grouping (matchList : List String)
    (delegate : List String → Bool) (h : matchList.length = 10) :
    (processSearchFilesByName matchList (some 5) delegate).total_files_found
      = 5 ∧
    (processSearchFilesByName matchList (some 5) delegate).total_groups = 1 ∧
    (processSearchFilesByName matchList (some 5) delegate).successful_groups +
      (processSearchFilesByName matchList (some 5) delegate).failed_groups
      = 1 := by
  have hlen : (matchList.take 5).length = 5 := by
    rw [List.length_take, h]
    rfl
  have hne : matchList.take 5 ≠ [] := by
    intro h2
    rw [h2] at hlen
    simp at hlen
  have hvv : (matchList.take 5).isEmpty = false := by
    simp [List.isEmpty_iff, hne]
  have hchunk : chunkList batchGroupSize (matchList.take 5) = [matchList.take 5] :=
    chunkList_singleton batchGroupSize (matchList.take 5) hne
      (by rw [hlen]; norm_num [batchGroupSize])
  simp only [processSearchFilesByName, hvv, Bool.false_eq_true, if_false,
    hchunk]
  refine ⟨hlen, rfl, ?_⟩
  simp only [List.map_cons, List.map_nil]
  cases delegate (matchList.take 5) <;> simp

/-- Witness for C8: ten concrete file names, every delegation succeeding. -/
theorem c8_batch_cap_before_grouping_witness :
    (processSearchFilesByName
        ["test0.py", "test1.py", "test2.py", "test3.py", "test4.py",
         "test5.py", "test6.py", "test7.py", "test8.py", "test9.py"]
        (some 5) (fun _ => true)).total_files_found = 5 ∧
    (processSearchFilesByName
        ["test0.py", "test1.py", "test2.py", "test3.py", "test4.py",
         "test5.py", "test6.py", "test7.py", "test8.py", "test9.py"]
        (some 5) (fun _ => true)).total_groups = 1 ∧
    (processSearchFilesByName
        ["test0.py", "test1.py", "test2.py", "test3.py", "test4.py",
         "test5.py", "test6.py", "test7.py", "test8.py", "test9.py"]
        (some 5) (fun _ => true)).successful_groups +
      (processSearchFilesByName
        ["test0.py", "test1.py", "test2.py", "test3.py", "test4.py",
         "test5.py", "test6.py", "test7.py", "test8.py", "test9.py"]
        (some 5) (fun _ => true)).failed_groups = 1 :=
  c8_batch_cap_before_grouping
    ["test0.py", "test1.py", "test2.py", "test3.py", "test4.py",
     "test5.py", "test6.py", "test7.py", "test8.py", "test9.py"]
    (fun _ => true) rfl

/-- Modelled from the spec: `LLMClient._build_messages` (spec §4.1 role
shaping; `mutator.llm.client` is not under the available sources).  A chat
message is a key–value dictionary.  When the system role is disabled by
configuration, the effective system content is folded into the single user
message as a labelled prefix instead of being dropped; otherwise it is sent
as a separate system-role message.  An explicit system message overrides the
configured system prompt. -/
def buildMessages (cfg : LLMConfig) (userMessage : String)
    (systemMessage : Option String) : List (List (String × String)) :=
  match systemMessage.orElse (fun _ => cfg.system_prompt) with
  | none => [[("role", "user"), ("content", userMessage)]]
  | some s =>
    if cfg.disable_system_prompt then
      [[("role", "user"),
        ("content", "System instructions: " ++ s ++ "\n\nUser request: "
          ++ userMessage)]]
    else
      [[("role", "system"), ("content", s)],
       [("role", "user"), ("content", userMessage)]]

/-- Modelled from the spec: the per-message half of
`LLMClient._prepare_messages` — when the tool role is disabled by
configuration, a tool-result message becomes a user-role message labelled
with the originating call id, and the `tool_call_id` key is removed; all
other messages pass through unchanged. -/
def prepareMessage (cfg : LLMConfig) (m : List (String × String)) :
    List (String × String) :=
  if cfg.disable_tool_role && (m.lookup "role" == some "tool") then
    match m.lookup "tool_call_id" with
    | some cid => [("role", "user"),
        ("content", "Tool result for call_id " ++ cid ++ ": "
          ++ (m.lookup "content").getD "")]
    | none => [("role", "user"),
        ("content", "Tool result: " ++ (m.lookup "content").getD "")]
  else m

/-- Modelled from the spec: `LLMClient._prepare_messages`, applied to each
message of the conversation in order, for any provider. -/
def prepareMessages (cfg : LLMConfig)
    (msgs : List (List (String × String))) :
    List (List (String × String)) :=
  msgs.map (prepareMessage cfg)

/-- C9: when the configuration disables the system role, the system content
is folded into the one user message as a labelled prefix — both the system
and the user content occur in a single user-role message — rather than
dropped; when the configuration disables the tool role, a tool-result
message is converted in place to a user-role message labelled with the
originating call id, and the `tool_call_id` key is removed, for any
provider. -/
theorem c9_role_folding :
    (∀ (cfg : LLMConfig) (user s : String),
      cfg.disable_system_prompt = true →
      ∃ m, buildMessages cfg user (some s) = [m] ∧
        m.lookup "role" = some "user" ∧
        ∃ c, m.lookup "content" = some c ∧
          s.data <:+: c.data ∧ user.data <:+: c.data) ∧
    (∀ (cfg : LLMConfig) (msgs : List (List (String × String)))
        (i : Nat) (m : List (String × String)) (cid c : String),
      cfg.disable_tool_role = true →
      msgs[i]? = some m →
      m.lookup "role" = some "tool" →
      m.lookup "tool_call_id" = some cid →
      m.lookup "content" = some c →
      (prepareMessages cfg msgs)[i]? = some (prepareMessage cfg m) ∧
      (prepareMessage cfg m).lookup "role" = some "user" ∧
      (prepareMessage cfg m).lookup "tool_call_id" = none ∧
      (prepareMessage cfg m).lookup "content" =
        some ("Tool result for call_id " ++ cid ++ ": " ++ c)) := by
  constructor
  · intro cfg user s hd
    refine ⟨[("role", "user"),
      ("content", "System instructions: " ++ s ++ "\n\nUser request: "
        ++ user)], ?_, rfl, ?_⟩
    · simp [buildMessages, Option.orElse, hd]
    · refine ⟨"System instructions: " ++ s ++ "\n\nUser request: "
        ++ user, rfl, ?_, ?_⟩
      · refine ⟨"System instructions: ".data,
          "\n\nUser request: ".data ++ user.data, ?_⟩
        simp [String.data_append]
      · refine ⟨"System instructions: ".data ++ s.data
          ++ "\n\nUser request: ".data, [], ?_⟩
        simp [String.data_append]
  · intro cfg msgs i m cid c hd hi hrole hcid hc
    have hm : prepareMessage cfg m = [("role", "user"),
        ("content", "Tool result for call_id " ++ cid ++ ": " ++ c)] := by
      rw [prepareMessage]
      simp [hd, hrole, hcid, hc]
    refine ⟨?_, ?_, ?_, ?_⟩
    · rw [prepareMessages, List.getElem?_map, hi]
      rfl
    · rw [hm]
      rfl
    · rw [hm]
      rfl
    · rw [hm]
      rfl

/-- Witness for C9: the system-folding case on the test configuration, and
the tool-result conversion on the test message. -/
theorem c9_role_folding_witness :
    (∃ m, buildMessages
        ⟨.openai, "gpt-4", none, none, none, 3, 1/10,
          some "You are a helpful assistant", true, false⟩
        "Hello" (some "Custom system message") = [m] ∧
      m.lookup "role" = some "user" ∧
      ∃ c, m.lookup "content" = some c ∧
        "Custom system message".data <:+: c.data ∧
        "Hello".data <:+: c.data) ∧
    ((prepareMessage
        ⟨.openai, "gpt-4", none, none, none, 3, 1/10, none, false, true⟩
        [("role", "tool"), ("content", "Tool result content"),
         ("tool_call_id", "call_123")]).lookup "tool_call_id" = none ∧
     (prepareMessage
        ⟨.openai, "gpt-4", none, none, none, 3, 1/10, none, false, true⟩
        [("role", "tool"), ("content", "Tool result content"),
         ("tool_call_id", "call_123")]).lookup "content" =
       some "Tool result for call_id call_123: Tool result content") := by
  constructor
  · exact c9_role_folding.1
      ⟨.openai, "gpt-4", none, none, none, 3, 1/10,
        some "You are a helpful assistant", true, false⟩
      "Hello" "Custom system message" rfl
  · have h := c9_role_folding.2
      ⟨.openai, "gpt-4", none, none, none, 3, 1/10, none, false, true⟩
      [[("role", "tool"), ("content", "Tool result content"),
        ("tool_call_id", "call_123")]]
      0
      [("role", "tool"), ("content", "Tool result content"),
       ("tool_call_id", "call_123")]
      "call_123" "Tool result content" rfl rfl rfl rfl rfl
    exact ⟨h.2.2.1, h.2.2.2⟩

/-- A requested tool invocation (spec §3, `ToolCall`): call id, tool name,
argument map. -/
structure ToolCall where
  id : String
  name : String
  arguments : List (String × JVal)

/-- Modelled from the spec and `tests/unit/test_types`
(`mutator.core.types` is not under the available sources): the `ToolCall`
constructor accepts the legacy keyword `parameters` as an alias for
`arguments`; when both are supplied, `arguments` takes precedence and the
`parameters` value is discarded; when neither is supplied the argument map
is empty. -/
def mkToolCall (cid tname : String)
    (arguments : Option (List (String × JVal)))
    (parameters : Option (List (String × JVal))) : ToolCall :=
  { id := cid, name := tname,
    arguments := (arguments.orElse (fun _ => parameters)).getD [] }

/-- C10: constructing a `ToolCall` with the legacy field name `parameters`
populates its `arguments` field with the same map; when both `arguments`
and `parameters` are supplied, the `arguments` value takes precedence and
the `parameters` value is discarded. -/
theorem c10_toolcall_legacy_parameters (cid tname : String)
    (ps qs : List (String × JVal)) :
    (mkToolCall cid tname none (some ps)).arguments = ps ∧
    (mkToolCall cid tname (some qs) (some ps)).arguments = qs ∧
    (mkToolCall cid tname none (some ps)).id = cid ∧
    (mkToolCall cid tname none (some ps)).name = tname :=
  ⟨rfl, rfl, rfl, rfl⟩
